import Mathlib

/-
Verification of the chat-completion client binding (src/chat.go).

The single source file defines the data model (ChatCompletionOptions,
ChatMessage, ChatCompletionResponse) and the pipeline function
Engine.ChatCompletion.  The collaborators it calls (the validation engine,
the JSON codec helpers marshalJson and unmarshal, the transport helpers
newReq and doReq, and the constant defaultMaxTokens) live elsewhere in the
repository and are not among the given sources; following the spec they are
modelled as fields of an Engine record, with concrete spec-modelled
instances where a claim needs their behaviour.

Go pointer semantics: the options argument is a pointer, so the assignment
to its MaxTokens field is visible to the caller after the call returns.
The embedding therefore returns the final state of the options structure
as part of the call result, together with a trace of which collaborator
invocations occurred, in order.  Go float32 fields are modelled as Int:
the claims depend only on zero-testing and unchanged pass-through of these
fields, never on floating-point arithmetic.
-/

namespace Openai

/-- JSON documents, as produced by the Go encoding/json codec on the data
model of src/chat.go.  Numbers are modelled as Int (no numeric field of the
data model is subjected to arithmetic). -/
inductive Json where
  | null : Json
  | str : String → Json
  | num : Int → Json
  | arr : List Json → Json
  | obj : List (String × Json) → Json

/-- Key lookup in the field list of a JSON object: first binding wins,
`none` means the key does not occur at all. -/
def Json.lookupKey (fields : List (String × Json)) (k : String) : Option Json :=
  match fields with
  | [] => none
  | (k₁, v) :: rest => if k₁ = k then some v else Json.lookupKey rest k

/-- Key lookup on a JSON value: `none` on anything but an object. -/
def Json.lookup (j : Json) (k : String) : Option Json :=
  match j with
  | Json.obj fields => Json.lookupKey fields k
  | _ => none

/-- ID of the model to use (type Model, a string, from the repository). -/
abbrev Model := String

/-- ChatMessage of src/chat.go: one turn of a conversation. -/
structure ChatMessage where
  Content : String
  Role : String
deriving DecidableEq

/-- ChatCompletionOptions of src/chat.go.  Messages is a Go slice whose nil
value is distinguishable from a non-nil empty slice; it is modelled as
`Option (List ChatMessage)` with `none` for the nil slice.  Stop only ever
matters through its length, so it is a plain list.  The float32 fields
Temperature, TopP, PresencePenalty, FrequencyPenalty are modelled as Int
(only zero-testing and pass-through are used). -/
structure ChatCompletionOptions where
  Model : Model
  Messages : Option (List ChatMessage)
  Temperature : Int
  TopP : Int
  N : Int
  Stop : List String
  MaxTokens : Int
  PresencePenalty : Int
  FrequencyPenalty : Int
deriving DecidableEq

/-- One choice of ChatCompletionResponse (an anonymous struct in the Go
source). -/
structure ChatCompletionChoice where
  Message : ChatMessage
  Index : Int
  FinishReason : String
deriving DecidableEq

/-- The usage counters of ChatCompletionResponse (an anonymous struct in
the Go source). -/
structure ChatCompletionUsage where
  PromptTokens : Int
  CompletionTokens : Int
  TotalTokens : Int
deriving DecidableEq

/-- ChatCompletionResponse of src/chat.go. -/
structure ChatCompletionResponse where
  Id : String
  Object : String
  Created : Int
  Choices : List ChatCompletionChoice
  Usage : ChatCompletionUsage
deriving DecidableEq

/-- Modelled from the spec: the error taxonomy of section 7 of the spec
(ValidationError, SerializationError, TransportError, DeserializationError,
plus an error from request construction).  The Go code itself only passes
opaque error values through, so only distinguishability matters. -/
inductive Error where
  | validation (fields : List String)
  | serialization (msg : String)
  | transport (msg : String)
  | deserialization (msg : String)
  | request (msg : String)
deriving DecidableEq

/-- An HTTP request as produced by the newReq collaborator: method, url,
body encoding and body. -/
structure Request where
  method : String
  url : String
  encoding : String
  body : Json

/-- One collaborator invocation performed by ChatCompletion, recorded in
order.  The newReq, doReq and unmarshal events carry the arguments the
collaborator was invoked with. -/
inductive Event where
  | validateCall : Event
  | marshalCall : Event
  | newReqCall (method url encoding : String) (body : Json) : Event
  | doReqCall (req : Request) : Event
  | unmarshalCall (body : Json) : Event

/-- True exactly on a doReq invocation event (an outbound HTTP request). -/
def Event.isDoReq : Event → Bool
  | Event.doReqCall _ => true
  | _ => false

/-- The collaborators of src/chat.go that are not among the given sources:
the validation engine (e.validate.StructCtx), the JSON codec (marshalJson,
unmarshal) and the transport (newReq, doReq), together with the base URL.
The cancellable context parameter carries no data the pipeline inspects and
is dropped. -/
structure Engine where
  apiBaseURL : String
  validate : ChatCompletionOptions → Option Error
  marshalJson : ChatCompletionOptions → Except Error Json
  newReq : String → String → String → Json → Except Error Request
  doReq : Request → Except Error Json
  unmarshal : Json → Except Error ChatCompletionResponse

/-- Modelled from the spec: the validation engine collaborator
(e.validate.StructCtx is not among the given sources).  Per the spec it is
a declarative required-field check on the fields tagged required in
src/chat.go, namely Model and Messages; presence only, non-emptiness of
Messages is not enforced.  Model is missing when it is the empty string
(the Go zero value), Messages is missing when the slice is nil.  On
violation it produces a ValidationError carrying the offending fields. -/
def validateStruct (opts : ChatCompletionOptions) : Option Error :=
  let missing :=
    (if opts.Model = "" then ["Model"] else [])
      ++ (if opts.Messages = none then ["Messages"] else [])
  if missing = [] then none else some (Error.validation missing)

/-- Serialization of one ChatMessage per its json tags in src/chat.go
(content, role, no omitempty). -/
def marshalMessage (m : ChatMessage) : Json :=
  Json.obj [("content", Json.str m.Content), ("role", Json.str m.Role)]

/-- A field list entry that is dropped when its omitempty test holds. -/
def optField (dropped : Bool) (k : String) (v : Json) : List (String × Json) :=
  if dropped then [] else [(k, v)]

/-- Modelled from the spec: the JSON codec collaborator (marshalJson is not
among the given sources) applied to ChatCompletionOptions, following the
json struct tags declared in src/chat.go: model and messages are always
emitted (a nil Messages slice serializes as null), every other field
carries omitempty and is dropped at the zero value of its type (0 for the
numeric fields, an empty slice for Stop). -/
def marshalOptions (opts : ChatCompletionOptions) : Json :=
  Json.obj (
    [("model", Json.str opts.Model),
      ("messages",
        match opts.Messages with
        | none => Json.null
        | some ms => Json.arr (ms.map marshalMessage))]
      ++ optField (opts.Temperature = 0) "temperature" (Json.num opts.Temperature)
      ++ optField (opts.TopP = 0) "top_p" (Json.num opts.TopP)
      ++ optField (opts.N = 0) "n" (Json.num opts.N)
      ++ optField (opts.Stop = []) "stop" (Json.arr (opts.Stop.map Json.str))
      ++ optField (opts.MaxTokens = 0) "max_tokens" (Json.num opts.MaxTokens)
      ++ optField (opts.PresencePenalty = 0) "presence_penalty"
          (Json.num opts.PresencePenalty)
      ++ optField (opts.FrequencyPenalty = 0) "frequency_penalty"
          (Json.num opts.FrequencyPenalty))

/-- Decoding a string-typed field of a JSON object, Go style: an absent key
keeps the zero value, a null keeps the zero value, a non-string value is a
type mismatch error. -/
def decodeString (fields : List (String × Json)) (k : String) : Except Error String :=
  match Json.lookupKey fields k with
  | none => Except.ok ""
  | some Json.null => Except.ok ""
  | some (Json.str s) => Except.ok s
  | some _ => Except.error (Error.deserialization k)

/-- Decoding an int-typed field of a JSON object, Go style: an absent key
keeps the zero value, a null keeps the zero value, a non-number value is a
type mismatch error. -/
def decodeInt (fields : List (String × Json)) (k : String) : Except Error Int :=
  match Json.lookupKey fields k with
  | none => Except.ok 0
  | some Json.null => Except.ok 0
  | some (Json.num n) => Except.ok n
  | some _ => Except.error (Error.deserialization k)

/-- Decoding one ChatMessage from JSON per its tags in src/chat.go. -/
def decodeMessage (j : Json) : Except Error ChatMessage :=
  match j with
  | Json.null => Except.ok ⟨"", ""⟩
  | Json.obj fields => do
    let content ← decodeString fields "content"
    let role ← decodeString fields "role"
    Except.ok ⟨content, role⟩
  | _ => Except.error (Error.deserialization "ChatMessage")

/-- Decoding one choice of ChatCompletionResponse from JSON per its tags in
src/chat.go (message, index, finish_reason). -/
def decodeChoice (j : Json) : Except Error ChatCompletionChoice :=
  match j with
  | Json.null => Except.ok ⟨⟨"", ""⟩, 0, ""⟩
  | Json.obj fields => do
    let message ←
      match Json.lookupKey fields "message" with
      | none => Except.ok (⟨"", ""⟩ : ChatMessage)
      | some mj => decodeMessage mj
    let index ← decodeInt fields "index"
    let finishReason ← decodeString fields "finish_reason"
    Except.ok ⟨message, index, finishReason⟩
  | _ => Except.error (Error.deserialization "choice")

/-- Decoding a choices array elementwise, failing on the first element
that does not decode (as the Go codec does for arrays). -/
def decodeChoices : List Json → Except Error (List ChatCompletionChoice)
  | [] => Except.ok []
  | j :: rest => do
    let c ← decodeChoice j
    let cs ← decodeChoices rest
    Except.ok (c :: cs)

/-- Decoding the usage counters of ChatCompletionResponse from JSON per the
tags in src/chat.go (prompt_tokens, completion_tokens, total_tokens). -/
def decodeUsage (j : Json) : Except Error ChatCompletionUsage :=
  match j with
  | Json.null => Except.ok ⟨0, 0, 0⟩
  | Json.obj fields => do
    let p ← decodeInt fields "prompt_tokens"
    let c ← decodeInt fields "completion_tokens"
    let t ← decodeInt fields "total_tokens"
    Except.ok ⟨p, c, t⟩
  | _ => Except.error (Error.deserialization "usage")

/-- Modelled from the spec: the JSON codec collaborator (unmarshal is not
among the given sources) decoding a response body into
ChatCompletionResponse per the json tags in src/chat.go, Go style: unknown
keys are ignored, absent keys keep zero values, type mismatches error. -/
def unmarshalResponse (j : Json) : Except Error ChatCompletionResponse :=
  match j with
  | Json.obj fields => do
    let id ← decodeString fields "id"
    let object ← decodeString fields "object"
    let created ← decodeInt fields "created"
    let choices ←
      match Json.lookupKey fields "choices" with
      | none => Except.ok ([] : List ChatCompletionChoice)
      | some Json.null => Except.ok ([] : List ChatCompletionChoice)
      | some (Json.arr xs) => decodeChoices xs
      | some _ => Except.error (Error.deserialization "choices")
    let usage ←
      match Json.lookupKey fields "usage" with
      | none => Except.ok (⟨0, 0, 0⟩ : ChatCompletionUsage)
      | some uj => decodeUsage uj
    Except.ok ⟨id, object, created, choices, usage⟩
  | _ => Except.error (Error.deserialization "ChatCompletionResponse")

/-- Modelled from the spec: the process-wide constant defaultMaxTokens,
whose definition is not among the given sources.  Only that it is a fixed
nonzero constant matters to the claims; a representative value is used. -/
def defaultMaxTokens : Int := 1024

/-- The outcome of one ChatCompletion call: the two Go return values
(response pointer and error, each possibly nil, modelled as options), the
final state of the caller-visible options structure (the options argument
is a pointer, so mutations persist), and the ordered trace of collaborator
invocations. -/
structure CallResult where
  resp : Option ChatCompletionResponse
  err : Option Error
  finalOpts : ChatCompletionOptions
  trace : List Event

/-- The MaxTokens defaulting of src/chat.go (if opts.MaxTokens == 0 then
opts.MaxTokens = defaultMaxTokens), as a function on the options value the
pointer refers to. -/
def applyDefault (opts : ChatCompletionOptions) : ChatCompletionOptions :=
  if opts.MaxTokens = 0 then { opts with MaxTokens := defaultMaxTokens } else opts

/-- Engine.ChatCompletion of src/chat.go, embedded stage by stage:
validate, then default MaxTokens when zero, then marshalJson, newReq,
doReq, unmarshal, each early-returning (nil, err) on error, and finally
returning (&result, nil). -/
def ChatCompletion (e : Engine) (opts : ChatCompletionOptions) : CallResult :=
  match e.validate opts with
  | some err => ⟨none, some err, opts, [Event.validateCall]⟩
  | none =>
    let uri := e.apiBaseURL ++ "/chat/completions"
    let opts := applyDefault opts
    match e.marshalJson opts with
    | Except.error err => ⟨none, some err, opts, [Event.validateCall, Event.marshalCall]⟩
    | Except.ok r =>
      match e.newReq "POST" uri "json" r with
      | Except.error err =>
        ⟨none, some err, opts,
          [Event.validateCall, Event.marshalCall, Event.newReqCall "POST" uri "json" r]⟩
      | Except.ok req =>
        match e.doReq req with
        | Except.error err =>
          ⟨none, some err, opts,
            [Event.validateCall, Event.marshalCall, Event.newReqCall "POST" uri "json" r,
              Event.doReqCall req]⟩
        | Except.ok respBody =>
          match e.unmarshal respBody with
          | Except.error err =>
            ⟨none, some err, opts,
              [Event.validateCall, Event.marshalCall, Event.newReqCall "POST" uri "json" r,
                Event.doReqCall req, Event.unmarshalCall respBody]⟩
          | Except.ok result =>
            ⟨some result, none, opts,
              [Event.validateCall, Event.marshalCall, Event.newReqCall "POST" uri "json" r,
                Event.doReqCall req, Event.unmarshalCall respBody]⟩

/-- An Engine whose validation and JSON codec collaborators are the
spec-modelled concrete ones and whose transport (newReq, doReq) is
caller-supplied, as in the spec testable properties (a transport double). -/
def mkEngine (baseURL : String)
    (nr : String → String → String → Json → Except Error Request)
    (dr : Request → Except Error Json) : Engine where
  apiBaseURL := baseURL
  validate := validateStruct
  marshalJson := fun o => Except.ok (marshalOptions o)
  newReq := nr
  doReq := dr
  unmarshal := unmarshalResponse

/-- A transport double for request construction that always succeeds,
packaging its arguments into a Request. -/
def okNewReq : String → String → String → Json → Except Error Request :=
  fun m u en b => Except.ok ⟨m, u, en, b⟩

/-- A transport double that answers every request with a fixed body. -/
def okDoReq (body : Json) : Request → Except Error Json :=
  fun _ => Except.ok body

/-- Encoding of one choice, used to build well-formed response bodies for
the transport double. -/
def encodeChoice (c : ChatCompletionChoice) : Json :=
  Json.obj
    [("message", marshalMessage c.Message), ("index", Json.num c.Index),
      ("finish_reason", Json.str c.FinishReason)]

/-- Encoding of a full ChatCompletionResponse per the json tags in
src/chat.go, used to build well-formed response bodies for the transport
double. -/
def encodeResponse (r : ChatCompletionResponse) : Json :=
  Json.obj
    [("id", Json.str r.Id), ("object", Json.str r.Object),
      ("created", Json.num r.Created),
      ("choices", Json.arr (r.Choices.map encodeChoice)),
      ("usage",
        Json.obj
          [("prompt_tokens", Json.num r.Usage.PromptTokens),
            ("completion_tokens", Json.num r.Usage.CompletionTokens),
            ("total_tokens", Json.num r.Usage.TotalTokens)])]

/-- Lookup distributes over appended field lists, first hit wins. -/
theorem lookupKey_append (xs ys : List (String × Json)) (k : String) :
    Json.lookupKey (xs ++ ys) k =
      ((Json.lookupKey xs k).orElse fun _ => Json.lookupKey ys k) := by
  induction xs with
  | nil => simp [Json.lookupKey]
  | cons p rest ih =>
    obtain ⟨k₁, v⟩ := p
    by_cases h : k₁ = k <;> simp [Json.lookupKey, h, ih]

/-- Lookup on a single optional field entry. -/
theorem lookupKey_optField (b : Bool) (k₁ k : String) (v : Json) :
    Json.lookupKey (optField b k₁ v) k =
      if b then none else if k₁ = k then some v else none := by
  cases b <;> simp [optField, Json.lookupKey]

/-- When validation passes and serialization succeeds, the newReq
invocation event, carrying the serialized body, is in the trace whatever
the transport does. -/
theorem newReqCall_mem_trace (e : Engine) (opts : ChatCompletionOptions) (b : Json)
    (hv : e.validate opts = none)
    (hm : e.marshalJson (applyDefault opts) = Except.ok b) :
    Event.newReqCall "POST" (e.apiBaseURL ++ "/chat/completions") "json" b
      ∈ (ChatCompletion e opts).trace := by
  unfold ChatCompletion
  rw [hv]
  simp only [hm]
  cases hnr : e.newReq "POST" (e.apiBaseURL ++ "/chat/completions") "json" b with
  | error err => simp [hnr]
  | ok req =>
    cases hdr : e.doReq req with
    | error err => simp [hnr, hdr]
    | ok rb =>
      cases hu : e.unmarshal rb with
      | error err => simp [hnr, hdr, hu]
      | ok res => simp [hnr, hdr, hu]

/-- When validation, serialization and request construction succeed, the
doReq invocation event, carrying the constructed request, is in the trace
whatever the transport answers. -/
theorem doReqCall_mem_trace (e : Engine) (opts : ChatCompletionOptions)
    (b : Json) (req : Request)
    (hv : e.validate opts = none)
    (hm : e.marshalJson (applyDefault opts) = Except.ok b)
    (hnr : e.newReq "POST" (e.apiBaseURL ++ "/chat/completions") "json" b = Except.ok req) :
    Event.doReqCall req ∈ (ChatCompletion e opts).trace := by
  unfold ChatCompletion
  rw [hv]
  simp only [hm, hnr]
  cases hdr : e.doReq req with
  | error err => simp [hdr]
  | ok rb =>
    cases hu : e.unmarshal rb with
    | error err => simp [hdr, hu]
    | ok res => simp [hdr, hu]

/-- Every newReq invocation event in a trace of ChatCompletion on an
mkEngine carries the serialization of the defaulted options as its body
(and the POST method, the completions uri and the json encoding). -/
theorem newReqCall_args (baseURL : String)
    (nr : String → String → String → Json → Except Error Request)
    (dr : Request → Except Error Json) (opts : ChatCompletionOptions)
    (m u en : String) (body : Json)
    (h : Event.newReqCall m u en body
      ∈ (ChatCompletion (mkEngine baseURL nr dr) opts).trace) :
    m = "POST" ∧ u = baseURL ++ "/chat/completions" ∧ en = "json"
      ∧ body = marshalOptions (applyDefault opts) := by
  simp only [ChatCompletion, mkEngine] at h
  cases hv : validateStruct opts with
  | some err => rw [hv] at h; simp at h
  | none =>
    rw [hv] at h
    cases hnr : nr "POST" (baseURL ++ "/chat/completions") "json"
        (marshalOptions (applyDefault opts)) with
    | error err => simp [hnr] at h; exact h
    | ok req =>
      cases hdr : dr req with
      | error err => simp [hnr, hdr] at h; exact h
      | ok rb =>
        cases hu : unmarshalResponse rb with
        | error err => simp [hnr, hdr, hu] at h; exact h
        | ok res => simp [hnr, hdr, hu] at h; exact h

/-- C1: for every options value missing Model or Messages, ChatCompletion
returns the ValidationError produced by the validation stage, returns no
response, and performs zero network calls: its trace is the single
validation event, so neither serialization nor newReq nor doReq is ever
invoked. -/
theorem chatCompletion_missing_required_short_circuits
    (baseURL : String)
    (nr : String → String → String → Json → Except Error Request)
    (dr : Request → Except Error Json) (opts : ChatCompletionOptions)
    (h : opts.Model = "" ∨ opts.Messages = none) :
    (ChatCompletion (mkEngine baseURL nr dr) opts).err =
        some (Error.validation
          ((if opts.Model = "" then ["Model"] else [])
            ++ (if opts.Messages = none then ["Messages"] else [])))
      ∧ (ChatCompletion (mkEngine baseURL nr dr) opts).resp = none
      ∧ (ChatCompletion (mkEngine baseURL nr dr) opts).trace = [Event.validateCall] := by
  have hv : validateStruct opts =
      some (Error.validation
        ((if opts.Model = "" then ["Model"] else [])
          ++ (if opts.Messages = none then ["Messages"] else []))) := by
    rcases h with h | h <;> simp [validateStruct, h]
  refine ⟨?_, ?_, ?_⟩ <;> simp [ChatCompletion, mkEngine, hv]

/-- C1 witness: concrete options missing both Model and Messages. -/
theorem chatCompletion_missing_required_short_circuits_witness :
    (ChatCompletion (mkEngine "http://api" okNewReq (okDoReq Json.null))
          ⟨"", none, 0, 0, 0, [], 0, 0, 0⟩).err =
        some (Error.validation ["Model", "Messages"])
      ∧ (ChatCompletion (mkEngine "http://api" okNewReq (okDoReq Json.null))
          ⟨"", none, 0, 0, 0, [], 0, 0, 0⟩).resp = none
      ∧ (ChatCompletion (mkEngine "http://api" okNewReq (okDoReq Json.null))
          ⟨"", none, 0, 0, 0, [], 0, 0, 0⟩).trace = [Event.validateCall] := by
  have h := chatCompletion_missing_required_short_circuits "http://api" okNewReq
    (okDoReq Json.null) ⟨"", none, 0, 0, 0, [], 0, 0, 0⟩ (Or.inl rfl)
  simpa using h

/-- The max_tokens key of the serialized options: present exactly when
MaxTokens is nonzero, carrying the field value. -/
theorem marshalOptions_max_tokens (opts : ChatCompletionOptions) :
    Json.lookup (marshalOptions opts) "max_tokens" =
      if opts.MaxTokens = 0 then none else some (Json.num opts.MaxTokens) := by
  simp [marshalOptions, Json.lookup, lookupKey_append, lookupKey_optField,
    Json.lookupKey]

/-- The defaulting constant is nonzero, so a defaulted MaxTokens is never
dropped by omitempty. -/
theorem applyDefault_MaxTokens (opts : ChatCompletionOptions) :
    (applyDefault opts).MaxTokens =
      if opts.MaxTokens = 0 then defaultMaxTokens else opts.MaxTokens := by
  by_cases h : opts.MaxTokens = 0 <;> simp [applyDefault, h]

/-- C2: for every options value that passes validation, the serialized
outbound body handed to request construction has max_tokens equal to
defaultMaxTokens when MaxTokens was zero at call time, and equal to the
caller-supplied value unchanged otherwise. -/
theorem chatCompletion_max_tokens_serialized (baseURL : String)
    (nr : String → String → String → Json → Except Error Request)
    (dr : Request → Except Error Json) (opts : ChatCompletionOptions)
    (hv : validateStruct opts = none) :
    ∃ body,
      Event.newReqCall "POST" (baseURL ++ "/chat/completions") "json" body
          ∈ (ChatCompletion (mkEngine baseURL nr dr) opts).trace
        ∧ Json.lookup body "max_tokens" =
            some (Json.num
              (if opts.MaxTokens = 0 then defaultMaxTokens else opts.MaxTokens)) := by
  refine ⟨marshalOptions (applyDefault opts), ?_, ?_⟩
  · exact newReqCall_mem_trace (mkEngine baseURL nr dr) opts _ hv rfl
  · rw [marshalOptions_max_tokens, applyDefault_MaxTokens]
    by_cases h : opts.MaxTokens = 0 <;> simp [h, defaultMaxTokens]

/-- C2 witness: concrete valid options, once with MaxTokens zero and once
with MaxTokens five. -/
theorem chatCompletion_max_tokens_serialized_witness :
    (∃ body,
      Event.newReqCall "POST" "http://api/chat/completions" "json" body
          ∈ (ChatCompletion (mkEngine "http://api" okNewReq (okDoReq Json.null))
              ⟨"gpt-x", some [⟨"hi", "user"⟩], 0, 0, 0, [], 0, 0, 0⟩).trace
        ∧ Json.lookup body "max_tokens" = some (Json.num defaultMaxTokens))
    ∧ (∃ body,
      Event.newReqCall "POST" "http://api/chat/completions" "json" body
          ∈ (ChatCompletion (mkEngine "http://api" okNewReq (okDoReq Json.null))
              ⟨"gpt-x", some [⟨"hi", "user"⟩], 0, 0, 0, [], 5, 0, 0⟩).trace
        ∧ Json.lookup body "max_tokens" = some (Json.num 5)) := by
  constructor
  · have h := chatCompletion_max_tokens_serialized "http://api" okNewReq
      (okDoReq Json.null) ⟨"gpt-x", some [⟨"hi", "user"⟩], 0, 0, 0, [], 0, 0, 0⟩ rfl
    simpa using h
  · have h := chatCompletion_max_tokens_serialized "http://api" okNewReq
      (okDoReq Json.null) ⟨"gpt-x", some [⟨"hi", "user"⟩], 0, 0, 0, [], 5, 0, 0⟩ rfl
    simpa using h

/-- When validation passes, the caller-visible options structure after the
call is the defaulted one, whatever the later stages do. -/
theorem finalOpts_valid (e : Engine) (opts : ChatCompletionOptions)
    (hv : e.validate opts = none) :
    (ChatCompletion e opts).finalOpts = applyDefault opts := by
  unfold ChatCompletion
  rw [hv]
  cases hm : e.marshalJson (applyDefault opts) with
  | error err => simp [hm]
  | ok b =>
    cases hnr : e.newReq "POST" (e.apiBaseURL ++ "/chat/completions") "json" b with
    | error err => simp [hm, hnr]
    | ok req =>
      cases hdr : e.doReq req with
      | error err => simp [hm, hnr, hdr]
      | ok rb =>
        cases hu : e.unmarshal rb with
        | error err => simp [hm, hnr, hdr, hu]
        | ok res => simp [hm, hnr, hdr, hu]

/-- When validation fails, the caller-visible options structure after the
call is exactly the one passed in. -/
theorem finalOpts_invalid (e : Engine) (opts : ChatCompletionOptions) (err : Error)
    (hv : e.validate opts = some err) :
    (ChatCompletion e opts).finalOpts = opts := by
  unfold ChatCompletion
  rw [hv]

/-- Defaulting touches no field but MaxTokens. -/
theorem applyDefault_frame (opts : ChatCompletionOptions) :
    (applyDefault opts).Model = opts.Model
      ∧ (applyDefault opts).Messages = opts.Messages
      ∧ (applyDefault opts).Temperature = opts.Temperature
      ∧ (applyDefault opts).TopP = opts.TopP
      ∧ (applyDefault opts).N = opts.N
      ∧ (applyDefault opts).Stop = opts.Stop
      ∧ (applyDefault opts).PresencePenalty = opts.PresencePenalty
      ∧ (applyDefault opts).FrequencyPenalty = opts.FrequencyPenalty := by
  by_cases h : opts.MaxTokens = 0 <;> simp [applyDefault, h]

/-- C3 counterexample: on concrete valid options with MaxTokens zero, the
caller-visible options structure after the call does not have MaxTokens
zero any more (the options argument is a pointer, so the defaulting is
visible to the caller), contradicting the claim that it still reads zero. -/
theorem chatCompletion_maxTokens_mutation_persists :
    (ChatCompletion (mkEngine "http://api" okNewReq (okDoReq Json.null))
        ⟨"gpt-x", some [⟨"hi", "user"⟩], 0, 0, 0, [], 0, 0, 0⟩).finalOpts.MaxTokens
      ≠ 0 := by
  decide

/-- C3 amended: the defaulting of a zero MaxTokens is applied once per
call, after validation succeeds, and the mutation persists in the
caller-visible options structure: after such a call MaxTokens reads
defaultMaxTokens; when validation fails the structure is unchanged. -/
theorem chatCompletion_maxTokens_default_visible :
    (∀ (e : Engine) (opts : ChatCompletionOptions),
        e.validate opts = none → opts.MaxTokens = 0 →
          (ChatCompletion e opts).finalOpts.MaxTokens = defaultMaxTokens)
      ∧ (∀ (e : Engine) (opts : ChatCompletionOptions) (err : Error),
          e.validate opts = some err →
            (ChatCompletion e opts).finalOpts = opts) := by
  constructor
  · intro e opts hv h0
    rw [finalOpts_valid e opts hv]
    simp [applyDefault, h0]
  · intro e opts err hv
    exact finalOpts_invalid e opts err hv

/-- C3 amended witness: a valid call with MaxTokens zero ends with the
caller seeing defaultMaxTokens, an invalid one ends with options intact. -/
theorem chatCompletion_maxTokens_default_visible_witness :
    (ChatCompletion (mkEngine "http://api" okNewReq (okDoReq Json.null))
        ⟨"gpt-x", some [⟨"hi", "user"⟩], 0, 0, 0, [], 0, 0, 0⟩).finalOpts.MaxTokens
      = defaultMaxTokens
    ∧ (ChatCompletion (mkEngine "http://api" okNewReq (okDoReq Json.null))
        ⟨"", some [⟨"hi", "user"⟩], 0, 0, 0, [], 0, 0, 0⟩).finalOpts
      = ⟨"", some [⟨"hi", "user"⟩], 0, 0, 0, [], 0, 0, 0⟩ := by
  constructor
  · exact chatCompletion_maxTokens_default_visible.1
      (mkEngine "http://api" okNewReq (okDoReq Json.null))
      ⟨"gpt-x", some [⟨"hi", "user"⟩], 0, 0, 0, [], 0, 0, 0⟩ rfl rfl
  · exact chatCompletion_maxTokens_default_visible.2
      (mkEngine "http://api" okNewReq (okDoReq Json.null))
      ⟨"", some [⟨"hi", "user"⟩], 0, 0, 0, [], 0, 0, 0⟩
      (Error.validation ["Model"]) rfl

/-- C10: under every outcome ChatCompletion leaves every field of the
caller-visible options structure except MaxTokens unchanged; when
validation fails the whole structure, MaxTokens included, is unchanged;
MaxTokens is changed (to defaultMaxTokens) only when validation succeeds
and it was zero at entry, and is unchanged when it was nonzero. -/
theorem chatCompletion_frame (e : Engine) (opts : ChatCompletionOptions) :
    ((ChatCompletion e opts).finalOpts.Model = opts.Model
        ∧ (ChatCompletion e opts).finalOpts.Messages = opts.Messages
        ∧ (ChatCompletion e opts).finalOpts.Temperature = opts.Temperature
        ∧ (ChatCompletion e opts).finalOpts.TopP = opts.TopP
        ∧ (ChatCompletion e opts).finalOpts.N = opts.N
        ∧ (ChatCompletion e opts).finalOpts.Stop = opts.Stop
        ∧ (ChatCompletion e opts).finalOpts.PresencePenalty = opts.PresencePenalty
        ∧ (ChatCompletion e opts).finalOpts.FrequencyPenalty = opts.FrequencyPenalty)
      ∧ (e.validate opts ≠ none → (ChatCompletion e opts).finalOpts = opts)
      ∧ (e.validate opts = none → opts.MaxTokens ≠ 0 →
          (ChatCompletion e opts).finalOpts.MaxTokens = opts.MaxTokens)
      ∧ (e.validate opts = none → opts.MaxTokens = 0 →
          (ChatCompletion e opts).finalOpts.MaxTokens = defaultMaxTokens) := by
  refine ⟨?_, ?_, ?_, ?_⟩
  · cases hv : e.validate opts with
    | some err => rw [finalOpts_invalid e opts err hv]; simp
    | none => rw [finalOpts_valid e opts hv]; exact applyDefault_frame opts
  · intro hne
    cases hv : e.validate opts with
    | some err => exact finalOpts_invalid e opts err hv
    | none => exact absurd hv hne
  · intro hv hnz
    rw [finalOpts_valid e opts hv]
    simp [applyDefault, hnz]
  · intro hv hz
    rw [finalOpts_valid e opts hv]
    simp [applyDefault, hz]

/-- C10 witness: frame conditions at concrete inputs, one per case (valid
call with zero MaxTokens, invalid call, valid call with nonzero
MaxTokens). -/
theorem chatCompletion_frame_witness :
    ((ChatCompletion (mkEngine "http://api" okNewReq (okDoReq Json.null))
          ⟨"gpt-x", some [⟨"hi", "user"⟩], 2, 3, 4, ["s"], 0, 5, 6⟩).finalOpts.Temperature
        = 2)
    ∧ (ChatCompletion (mkEngine "http://api" okNewReq (okDoReq Json.null))
          ⟨"", none, 2, 3, 4, ["s"], 0, 5, 6⟩).finalOpts
        = ⟨"", none, 2, 3, 4, ["s"], 0, 5, 6⟩
    ∧ (ChatCompletion (mkEngine "http://api" okNewReq (okDoReq Json.null))
          ⟨"gpt-x", some [⟨"hi", "user"⟩], 2, 3, 4, ["s"], 7, 5, 6⟩).finalOpts.MaxTokens
        = 7
    ∧ (ChatCompletion (mkEngine "http://api" okNewReq (okDoReq Json.null))
          ⟨"gpt-x", some [⟨"hi", "user"⟩], 2, 3, 4, ["s"], 0, 5, 6⟩).finalOpts.MaxTokens
        = defaultMaxTokens := by
  refine ⟨?_, ?_, ?_, ?_⟩
  · exact (chatCompletion_frame (mkEngine "http://api" okNewReq (okDoReq Json.null))
      ⟨"gpt-x", some [⟨"hi", "user"⟩], 2, 3, 4, ["s"], 0, 5, 6⟩).1.2.2.1
  · exact (chatCompletion_frame (mkEngine "http://api" okNewReq (okDoReq Json.null))
      ⟨"", none, 2, 3, 4, ["s"], 0, 5, 6⟩).2.1 (by simp [mkEngine, validateStruct])
  · exact (chatCompletion_frame (mkEngine "http://api" okNewReq (okDoReq Json.null))
      ⟨"gpt-x", some [⟨"hi", "user"⟩], 2, 3, 4, ["s"], 7, 5, 6⟩).2.2.1 rfl (by decide)
  · exact (chatCompletion_frame (mkEngine "http://api" okNewReq (okDoReq Json.null))
      ⟨"gpt-x", some [⟨"hi", "user"⟩], 2, 3, 4, ["s"], 0, 5, 6⟩).2.2.2 rfl rfl

/-- C4: whichever stage fails first (validate, marshalJson, newReq, doReq,
unmarshal), ChatCompletion returns exactly that stage's error value
unmodified together with a nil response, and no later stage runs: the full
call result, its trace included, is pinned by the first failure. -/
theorem chatCompletion_error_passthrough :
    (∀ (e : Engine) (opts : ChatCompletionOptions) (err : Error),
        e.validate opts = some err →
          ChatCompletion e opts = ⟨none, some err, opts, [Event.validateCall]⟩)
    ∧ (∀ (e : Engine) (opts : ChatCompletionOptions) (err : Error),
        e.validate opts = none →
        e.marshalJson (applyDefault opts) = Except.error err →
          ChatCompletion e opts =
            ⟨none, some err, applyDefault opts,
              [Event.validateCall, Event.marshalCall]⟩)
    ∧ (∀ (e : Engine) (opts : ChatCompletionOptions) (b : Json) (err : Error),
        e.validate opts = none →
        e.marshalJson (applyDefault opts) = Except.ok b →
        e.newReq "POST" (e.apiBaseURL ++ "/chat/completions") "json" b =
          Except.error err →
          ChatCompletion e opts =
            ⟨none, some err, applyDefault opts,
              [Event.validateCall, Event.marshalCall,
                Event.newReqCall "POST" (e.apiBaseURL ++ "/chat/completions") "json" b]⟩)
    ∧ (∀ (e : Engine) (opts : ChatCompletionOptions) (b : Json) (req : Request)
          (err : Error),
        e.validate opts = none →
        e.marshalJson (applyDefault opts) = Except.ok b →
        e.newReq "POST" (e.apiBaseURL ++ "/chat/completions") "json" b =
          Except.ok req →
        e.doReq req = Except.error err →
          ChatCompletion e opts =
            ⟨none, some err, applyDefault opts,
              [Event.validateCall, Event.marshalCall,
                Event.newReqCall "POST" (e.apiBaseURL ++ "/chat/completions") "json" b,
                Event.doReqCall req]⟩)
    ∧ (∀ (e : Engine) (opts : ChatCompletionOptions) (b rb : Json) (req : Request)
          (err : Error),
        e.validate opts = none →
        e.marshalJson (applyDefault opts) = Except.ok b →
        e.newReq "POST" (e.apiBaseURL ++ "/chat/completions") "json" b =
          Except.ok req →
        e.doReq req = Except.ok rb →
        e.unmarshal rb = Except.error err →
          ChatCompletion e opts =
            ⟨none, some err, applyDefault opts,
              [Event.validateCall, Event.marshalCall,
                Event.newReqCall "POST" (e.apiBaseURL ++ "/chat/completions") "json" b,
                Event.doReqCall req, Event.unmarshalCall rb]⟩) := by
  refine ⟨?_, ?_, ?_, ?_, ?_⟩
  · intro e opts err hv
    unfold ChatCompletion
    rw [hv]
  · intro e opts err hv hm
    unfold ChatCompletion
    rw [hv]
    simp [hm]
  · intro e opts b err hv hm hnr
    unfold ChatCompletion
    rw [hv]
    simp [hm, hnr]
  · intro e opts b req err hv hm hnr hdr
    unfold ChatCompletion
    rw [hv]
    simp [hm, hnr, hdr]
  · intro e opts b rb req err hv hm hnr hdr hu
    unfold ChatCompletion
    rw [hv]
    simp [hm, hnr, hdr, hu]

/-- C4 witness: one concrete failing engine per stage, each returning its
own error unmodified with the truncated trace. -/
theorem chatCompletion_error_passthrough_witness :
    (ChatCompletion
          { apiBaseURL := "http://api", validate := validateStruct,
            marshalJson := fun o => Except.ok (marshalOptions o),
            newReq := okNewReq, doReq := okDoReq Json.null,
            unmarshal := unmarshalResponse }
          ⟨"", none, 0, 0, 0, [], 0, 0, 0⟩ =
        ⟨none, some (Error.validation ["Model", "Messages"]),
          ⟨"", none, 0, 0, 0, [], 0, 0, 0⟩, [Event.validateCall]⟩)
    ∧ (ChatCompletion
          { apiBaseURL := "http://api", validate := validateStruct,
            marshalJson := fun _ => Except.error (Error.serialization "boom"),
            newReq := okNewReq, doReq := okDoReq Json.null,
            unmarshal := unmarshalResponse }
          ⟨"gpt-x", some [], 0, 0, 0, [], 3, 0, 0⟩ =
        ⟨none, some (Error.serialization "boom"),
          ⟨"gpt-x", some [], 0, 0, 0, [], 3, 0, 0⟩,
          [Event.validateCall, Event.marshalCall]⟩)
    ∧ (ChatCompletion
          { apiBaseURL := "http://api", validate := validateStruct,
            marshalJson := fun o => Except.ok (marshalOptions o),
            newReq := fun _ _ _ _ => Except.error (Error.request "bad"),
            doReq := okDoReq Json.null, unmarshal := unmarshalResponse }
          ⟨"gpt-x", some [], 0, 0, 0, [], 3, 0, 0⟩ =
        ⟨none, some (Error.request "bad"),
          ⟨"gpt-x", some [], 0, 0, 0, [], 3, 0, 0⟩,
          [Event.validateCall, Event.marshalCall,
            Event.newReqCall "POST" "http://api/chat/completions" "json"
              (marshalOptions ⟨"gpt-x", some [], 0, 0, 0, [], 3, 0, 0⟩)]⟩)
    ∧ (ChatCompletion
          { apiBaseURL := "http://api", validate := validateStruct,
            marshalJson := fun o => Except.ok (marshalOptions o),
            newReq := okNewReq,
            doReq := fun _ => Except.error (Error.transport "down"),
            unmarshal := unmarshalResponse }
          ⟨"gpt-x", some [], 0, 0, 0, [], 3, 0, 0⟩ =
        ⟨none, some (Error.transport "down"),
          ⟨"gpt-x", some [], 0, 0, 0, [], 3, 0, 0⟩,
          [Event.validateCall, Event.marshalCall,
            Event.newReqCall "POST" "http://api/chat/completions" "json"
              (marshalOptions ⟨"gpt-x", some [], 0, 0, 0, [], 3, 0, 0⟩),
            Event.doReqCall
              ⟨"POST", "http://api/chat/completions", "json",
                marshalOptions ⟨"gpt-x", some [], 0, 0, 0, [], 3, 0, 0⟩⟩]⟩)
    ∧ (ChatCompletion
          { apiBaseURL := "http://api", validate := validateStruct,
            marshalJson := fun o => Except.ok (marshalOptions o),
            newReq := okNewReq, doReq := okDoReq (Json.str "not an object"),
            unmarshal := unmarshalResponse }
          ⟨"gpt-x", some [], 0, 0, 0, [], 3, 0, 0⟩ =
        ⟨none, some (Error.deserialization "ChatCompletionResponse"),
          ⟨"gpt-x", some [], 0, 0, 0, [], 3, 0, 0⟩,
          [Event.validateCall, Event.marshalCall,
            Event.newReqCall "POST" "http://api/chat/completions" "json"
              (marshalOptions ⟨"gpt-x", some [], 0, 0, 0, [], 3, 0, 0⟩),
            Event.doReqCall
              ⟨"POST", "http://api/chat/completions", "json",
                marshalOptions ⟨"gpt-x", some [], 0, 0, 0, [], 3, 0, 0⟩⟩,
            Event.unmarshalCall (Json.str "not an object")]⟩) := by
  refine ⟨?_, ?_, ?_, ?_, ?_⟩
  · exact chatCompletion_error_passthrough.1 _ _ _ rfl
  · exact chatCompletion_error_passthrough.2.1 _
      ⟨"gpt-x", some [], 0, 0, 0, [], 3, 0, 0⟩ _ rfl rfl
  · exact chatCompletion_error_passthrough.2.2.1 _
      ⟨"gpt-x", some [], 0, 0, 0, [], 3, 0, 0⟩ _ _ rfl rfl rfl
  · exact chatCompletion_error_passthrough.2.2.2.1 _
      ⟨"gpt-x", some [], 0, 0, 0, [], 3, 0, 0⟩ _ _ _ rfl rfl rfl rfl
  · exact chatCompletion_error_passthrough.2.2.2.2 _
      ⟨"gpt-x", some [], 0, 0, 0, [], 3, 0, 0⟩ _ _ _ _ rfl rfl rfl rfl rfl

/-- C5: every call returns exactly one of the two values non-nil, either a
response with a nil error or a nil response with an error; never both and
never neither. -/
theorem chatCompletion_exclusive_result (e : Engine) (opts : ChatCompletionOptions) :
    ((∃ r, (ChatCompletion e opts).resp = some r)
        ∧ (ChatCompletion e opts).err = none)
      ∨ ((ChatCompletion e opts).resp = none
        ∧ ∃ err, (ChatCompletion e opts).err = some err) := by
  unfold ChatCompletion
  cases hv : e.validate opts with
  | some err => simp
  | none =>
    cases hm : e.marshalJson (applyDefault opts) with
    | error err => simp [hm]
    | ok b =>
      cases hnr : e.newReq "POST" (e.apiBaseURL ++ "/chat/completions") "json" b with
      | error err => simp [hm, hnr]
      | ok req =>
        cases hdr : e.doReq req with
        | error err => simp [hm, hnr, hdr]
        | ok rb =>
          cases hu : e.unmarshal rb with
          | error err => simp [hm, hnr, hdr, hu]
          | ok res => simp [hm, hnr, hdr, hu]

/-- Serialization of the options drops every optional field that sits at
the zero value of its type: no key for it appears in the body. -/
theorem marshalOptions_omits_zero (opts : ChatCompletionOptions) :
    (opts.Temperature = 0 → Json.lookup (marshalOptions opts) "temperature" = none)
      ∧ (opts.TopP = 0 → Json.lookup (marshalOptions opts) "top_p" = none)
      ∧ (opts.N = 0 → Json.lookup (marshalOptions opts) "n" = none)
      ∧ (opts.Stop = [] → Json.lookup (marshalOptions opts) "stop" = none)
      ∧ (opts.PresencePenalty = 0 →
          Json.lookup (marshalOptions opts) "presence_penalty" = none)
      ∧ (opts.FrequencyPenalty = 0 →
          Json.lookup (marshalOptions opts) "frequency_penalty" = none) := by
  refine ⟨?_, ?_, ?_, ?_, ?_, ?_⟩ <;> intro h <;>
    simp [marshalOptions, Json.lookup, lookupKey_append, lookupKey_optField,
      Json.lookupKey, h]

/-- C6: every body handed to request construction omits each optional
sampling or control field (Temperature, TopP, N, Stop, PresencePenalty,
FrequencyPenalty) whose value in the options is the zero value of its
type: no key for it appears in the serialized JSON at all. -/
theorem chatCompletion_omits_zero_optionals (baseURL : String)
    (nr : String → String → String → Json → Except Error Request)
    (dr : Request → Except Error Json) (opts : ChatCompletionOptions)
    (m u en : String) (body : Json)
    (h : Event.newReqCall m u en body
      ∈ (ChatCompletion (mkEngine baseURL nr dr) opts).trace) :
    (opts.Temperature = 0 → Json.lookup body "temperature" = none)
      ∧ (opts.TopP = 0 → Json.lookup body "top_p" = none)
      ∧ (opts.N = 0 → Json.lookup body "n" = none)
      ∧ (opts.Stop = [] → Json.lookup body "stop" = none)
      ∧ (opts.PresencePenalty = 0 → Json.lookup body "presence_penalty" = none)
      ∧ (opts.FrequencyPenalty = 0 → Json.lookup body "frequency_penalty" = none) := by
  obtain ⟨-, -, -, hb⟩ := newReqCall_args baseURL nr dr opts m u en body h
  subst hb
  obtain ⟨h1, h2, h3, h4, h5, h6, h7, h8⟩ := applyDefault_frame opts
  obtain ⟨g1, g2, g3, g4, g5, g6⟩ := marshalOptions_omits_zero (applyDefault opts)
  exact ⟨fun hz => g1 (h3.trans hz), fun hz => g2 (h4.trans hz),
    fun hz => g3 (h5.trans hz), fun hz => g4 (h6.trans hz),
    fun hz => g5 (h7.trans hz), fun hz => g6 (h8.trans hz)⟩

/-- C6 witness: a concrete call whose options leave all six optional
fields at zero, each absent from the outbound body. -/
theorem chatCompletion_omits_zero_optionals_witness :
    (Json.lookup
        (marshalOptions (applyDefault ⟨"gpt-x", some [⟨"hi", "user"⟩], 0, 0, 0, [], 0, 0, 0⟩))
        "temperature" = none)
      ∧ (Json.lookup
          (marshalOptions (applyDefault ⟨"gpt-x", some [⟨"hi", "user"⟩], 0, 0, 0, [], 0, 0, 0⟩))
          "top_p" = none)
      ∧ (Json.lookup
          (marshalOptions (applyDefault ⟨"gpt-x", some [⟨"hi", "user"⟩], 0, 0, 0, [], 0, 0, 0⟩))
          "n" = none)
      ∧ (Json.lookup
          (marshalOptions (applyDefault ⟨"gpt-x", some [⟨"hi", "user"⟩], 0, 0, 0, [], 0, 0, 0⟩))
          "stop" = none)
      ∧ (Json.lookup
          (marshalOptions (applyDefault ⟨"gpt-x", some [⟨"hi", "user"⟩], 0, 0, 0, [], 0, 0, 0⟩))
          "presence_penalty" = none)
      ∧ (Json.lookup
          (marshalOptions (applyDefault ⟨"gpt-x", some [⟨"hi", "user"⟩], 0, 0, 0, [], 0, 0, 0⟩))
          "frequency_penalty" = none) := by
  have h := chatCompletion_omits_zero_optionals "http://api" okNewReq
    (okDoReq Json.null) ⟨"gpt-x", some [⟨"hi", "user"⟩], 0, 0, 0, [], 0, 0, 0⟩
    "POST" ("http://api" ++ "/chat/completions") "json"
    (marshalOptions (applyDefault ⟨"gpt-x", some [⟨"hi", "user"⟩], 0, 0, 0, [], 0, 0, 0⟩))
    (newReqCall_mem_trace _ _ _ rfl rfl)
  exact ⟨h.1 rfl, h.2.1 rfl, h.2.2.1 rfl, h.2.2.2.1 rfl, h.2.2.2.2.1 rfl,
    h.2.2.2.2.2 rfl⟩

/-- Decoding inverts the encoding of one message. -/
theorem decodeMessage_marshalMessage (m : ChatMessage) :
    decodeMessage (marshalMessage m) = Except.ok m := rfl

/-- Decoding inverts the encoding of one choice. -/
theorem decodeChoice_encodeChoice (c : ChatCompletionChoice) :
    decodeChoice (encodeChoice c) = Except.ok c := rfl

/-- Decoding inverts the encoding of a choice list. -/
theorem decodeChoices_encode (cs : List ChatCompletionChoice) :
    decodeChoices (cs.map encodeChoice) = Except.ok cs := by
  induction cs with
  | nil => rfl
  | cons c rest ih =>
    simp [decodeChoices, decodeChoice_encodeChoice, ih]
    rfl

/-- C7: when the transport returns a body that decodes successfully into
ChatCompletionResponse, ChatCompletion returns exactly that decoding with
a nil error; and decoding is exact on every field: decoding the canonical
encoding of any response value recovers precisely that value (id, object,
created, every choice with its message, index and finish reason, and the
three usage counters). -/
theorem chatCompletion_returns_decoded_body :
    (∀ (baseURL : String)
        (nr : String → String → String → Json → Except Error Request)
        (opts : ChatCompletionOptions) (body : Json)
        (resp : ChatCompletionResponse) (req : Request),
        validateStruct opts = none →
        nr "POST" (baseURL ++ "/chat/completions") "json"
            (marshalOptions (applyDefault opts)) = Except.ok req →
        unmarshalResponse body = Except.ok resp →
          (ChatCompletion (mkEngine baseURL nr (okDoReq body)) opts).resp = some resp
            ∧ (ChatCompletion (mkEngine baseURL nr (okDoReq body)) opts).err = none)
    ∧ (∀ r : ChatCompletionResponse,
        unmarshalResponse (encodeResponse r) = Except.ok r) := by
  constructor
  · intro baseURL nr opts body resp req hv hnr hu
    have base : ChatCompletion (mkEngine baseURL nr (okDoReq body)) opts =
        ⟨some resp, none, applyDefault opts,
          [Event.validateCall, Event.marshalCall,
            Event.newReqCall "POST" (baseURL ++ "/chat/completions") "json"
              (marshalOptions (applyDefault opts)),
            Event.doReqCall req, Event.unmarshalCall body]⟩ := by
      simp only [ChatCompletion, mkEngine]
      rw [hv]
      simp [hnr, okDoReq, hu]
    rw [base]
    exact ⟨rfl, rfl⟩
  · intro r
    have h := decodeChoices_encode r.Choices
    simp [unmarshalResponse, encodeResponse, decodeString, decodeInt, decodeUsage,
      Json.lookupKey, h]
    rfl

/-- C7 witness: a transport double answering with the encoding of a fixed
response value; the call returns exactly that value and no error. -/
theorem chatCompletion_returns_decoded_body_witness :
    (ChatCompletion
          (mkEngine "http://api" okNewReq
            (okDoReq (encodeResponse
              ⟨"id1", "chat.completion", 5, [⟨⟨"yo", "assistant"⟩, 0, "length"⟩],
                ⟨1, 2, 3⟩⟩)))
          ⟨"gpt-x", some [⟨"hi", "user"⟩], 0, 0, 0, [], 0, 0, 0⟩).resp =
        some ⟨"id1", "chat.completion", 5, [⟨⟨"yo", "assistant"⟩, 0, "length"⟩], ⟨1, 2, 3⟩⟩
      ∧ (ChatCompletion
          (mkEngine "http://api" okNewReq
            (okDoReq (encodeResponse
              ⟨"id1", "chat.completion", 5, [⟨⟨"yo", "assistant"⟩, 0, "length"⟩],
                ⟨1, 2, 3⟩⟩)))
          ⟨"gpt-x", some [⟨"hi", "user"⟩], 0, 0, 0, [], 0, 0, 0⟩).err = none := by
  exact chatCompletion_returns_decoded_body.1 "http://api" okNewReq
    ⟨"gpt-x", some [⟨"hi", "user"⟩], 0, 0, 0, [], 0, 0, 0⟩
    (encodeResponse
      ⟨"id1", "chat.completion", 5, [⟨⟨"yo", "assistant"⟩, 0, "length"⟩], ⟨1, 2, 3⟩⟩)
    ⟨"id1", "chat.completion", 5, [⟨⟨"yo", "assistant"⟩, 0, "length"⟩], ⟨1, 2, 3⟩⟩
    ⟨"POST", "http://api" ++ "/chat/completions", "json",
      marshalOptions (applyDefault ⟨"gpt-x", some [⟨"hi", "user"⟩], 0, 0, 0, [], 0, 0, 0⟩)⟩
    rfl rfl
    (chatCompletion_returns_decoded_body.2
      ⟨"id1", "chat.completion", 5, [⟨⟨"yo", "assistant"⟩, 0, "length"⟩], ⟨1, 2, 3⟩⟩)

/-- When validation passes, the serialization stage runs: its event is in
the trace whatever the codec and the transport do. -/
theorem marshalCall_mem_trace (e : Engine) (opts : ChatCompletionOptions)
    (hv : e.validate opts = none) :
    Event.marshalCall ∈ (ChatCompletion e opts).trace := by
  unfold ChatCompletion
  rw [hv]
  cases hm : e.marshalJson (applyDefault opts) with
  | error err => simp [hm]
  | ok b =>
    cases hnr : e.newReq "POST" (e.apiBaseURL ++ "/chat/completions") "json" b with
    | error err => simp [hm, hnr]
    | ok req =>
      cases hdr : e.doReq req with
      | error err => simp [hm, hnr, hdr]
      | ok rb =>
        cases hu : e.unmarshal rb with
        | error err => simp [hm, hnr, hdr, hu]
        | ok res => simp [hm, hnr, hdr, hu]

/-- C8 counterexample: on options missing the required Model field, the
call performs zero doReq invocations, refuting that doReq is invoked
exactly once per invocation under any outcome. -/
theorem chatCompletion_doReq_not_always_once :
    ((ChatCompletion (mkEngine "http://api" okNewReq (okDoReq Json.null))
        ⟨"", none, 0, 0, 0, [], 0, 0, 0⟩).trace.countP Event.isDoReq) ≠ 1 := by
  decide

/-- C8 amended: doReq is invoked at most once per call, never a second
attempt under any outcome; and it is invoked exactly once whenever
validation, serialization and request construction all succeed (in
particular whenever it can fail there is no retry: the trace still counts
one invocation). -/
theorem chatCompletion_at_most_one_doReq :
    (∀ (e : Engine) (opts : ChatCompletionOptions),
        (ChatCompletion e opts).trace.countP Event.isDoReq ≤ 1)
      ∧ (∀ (e : Engine) (opts : ChatCompletionOptions) (b : Json) (req : Request),
          e.validate opts = none →
          e.marshalJson (applyDefault opts) = Except.ok b →
          e.newReq "POST" (e.apiBaseURL ++ "/chat/completions") "json" b =
            Except.ok req →
            (ChatCompletion e opts).trace.countP Event.isDoReq = 1) := by
  constructor
  · intro e opts
    unfold ChatCompletion
    cases hv : e.validate opts with
    | some err => simp [List.countP, List.countP.go, Event.isDoReq]
    | none =>
      cases hm : e.marshalJson (applyDefault opts) with
      | error err => simp [hm, List.countP, List.countP.go, Event.isDoReq]
      | ok b =>
        cases hnr : e.newReq "POST" (e.apiBaseURL ++ "/chat/completions") "json" b with
        | error err => simp [hm, hnr, List.countP, List.countP.go, Event.isDoReq]
        | ok req =>
          cases hdr : e.doReq req with
          | error err => simp [hm, hnr, hdr, List.countP, List.countP.go, Event.isDoReq]
          | ok rb =>
            cases hu : e.unmarshal rb with
            | error err =>
              simp [hm, hnr, hdr, hu, List.countP, List.countP.go, Event.isDoReq]
            | ok res =>
              simp [hm, hnr, hdr, hu, List.countP, List.countP.go, Event.isDoReq]
  · intro e opts b req hv hm hnr
    unfold ChatCompletion
    rw [hv]
    cases hdr : e.doReq req with
    | error err => simp [hm, hnr, hdr, List.countP, List.countP.go, Event.isDoReq]
    | ok rb =>
      cases hu : e.unmarshal rb with
      | error err =>
        simp [hm, hnr, hdr, hu, List.countP, List.countP.go, Event.isDoReq]
      | ok res =>
        simp [hm, hnr, hdr, hu, List.countP, List.countP.go, Event.isDoReq]

/-- C8 amended witness: the invalid call counts zero doReq invocations
(at most one), the fully successful call counts exactly one. -/
theorem chatCompletion_at_most_one_doReq_witness :
    ((ChatCompletion (mkEngine "http://api" okNewReq (okDoReq Json.null))
        ⟨"", none, 0, 0, 0, [], 0, 0, 0⟩).trace.countP Event.isDoReq ≤ 1)
      ∧ ((ChatCompletion (mkEngine "http://api" okNewReq (okDoReq Json.null))
          ⟨"gpt-x", some [⟨"hi", "user"⟩], 0, 0, 0, [], 0, 0, 0⟩).trace.countP
            Event.isDoReq = 1) := by
  constructor
  · exact chatCompletion_at_most_one_doReq.1
      (mkEngine "http://api" okNewReq (okDoReq Json.null))
      ⟨"", none, 0, 0, 0, [], 0, 0, 0⟩
  · exact chatCompletion_at_most_one_doReq.2
      (mkEngine "http://api" okNewReq (okDoReq Json.null))
      ⟨"gpt-x", some [⟨"hi", "user"⟩], 0, 0, 0, [], 0, 0, 0⟩
      (marshalOptions (applyDefault ⟨"gpt-x", some [⟨"hi", "user"⟩], 0, 0, 0, [], 0, 0, 0⟩))
      ⟨"POST", "http://api" ++ "/chat/completions", "json",
        marshalOptions (applyDefault ⟨"gpt-x", some [⟨"hi", "user"⟩], 0, 0, 0, [], 0, 0, 0⟩)⟩
      rfl rfl rfl

/-- C9: local validation of Messages checks presence only, not
non-emptiness: options with Model set and a non-nil empty Messages slice
produce no validation error, and the call goes on to serialize the options
and send the request over the transport. -/
theorem chatCompletion_empty_messages_accepted (baseURL : String)
    (nr : String → String → String → Json → Except Error Request)
    (dr : Request → Except Error Json) (opts : ChatCompletionOptions)
    (req : Request)
    (hm : opts.Model ≠ "") (he : opts.Messages = some [])
    (hnr : nr "POST" (baseURL ++ "/chat/completions") "json"
        (marshalOptions (applyDefault opts)) = Except.ok req) :
    validateStruct opts = none
      ∧ Event.marshalCall ∈ (ChatCompletion (mkEngine baseURL nr dr) opts).trace
      ∧ Event.doReqCall req ∈ (ChatCompletion (mkEngine baseURL nr dr) opts).trace := by
  have hv : validateStruct opts = none := by simp [validateStruct, hm, he]
  exact ⟨hv, marshalCall_mem_trace (mkEngine baseURL nr dr) opts hv,
    doReqCall_mem_trace (mkEngine baseURL nr dr) opts _ req hv rfl hnr⟩

/-- C9 witness: a concrete call with Model set and Messages a non-nil
empty slice passes validation, serializes and reaches the transport. -/
theorem chatCompletion_empty_messages_accepted_witness :
    validateStruct ⟨"gpt-x", some [], 0, 0, 0, [], 0, 0, 0⟩ = none
      ∧ Event.marshalCall
          ∈ (ChatCompletion (mkEngine "http://api" okNewReq (okDoReq Json.null))
              ⟨"gpt-x", some [], 0, 0, 0, [], 0, 0, 0⟩).trace
      ∧ Event.doReqCall
            ⟨"POST", "http://api" ++ "/chat/completions", "json",
              marshalOptions (applyDefault ⟨"gpt-x", some [], 0, 0, 0, [], 0, 0, 0⟩)⟩
          ∈ (ChatCompletion (mkEngine "http://api" okNewReq (okDoReq Json.null))
              ⟨"gpt-x", some [], 0, 0, 0, [], 0, 0, 0⟩).trace := by
  exact chatCompletion_empty_messages_accepted "http://api" okNewReq
    (okDoReq Json.null) ⟨"gpt-x", some [], 0, 0, 0, [], 0, 0, 0⟩
    ⟨"POST", "http://api" ++ "/chat/completions", "json",
      marshalOptions (applyDefault ⟨"gpt-x", some [], 0, 0, 0, [], 0, 0, 0⟩)⟩
    (by decide) rfl rfl

end Openai
